import Mathlib

/-!
Shallow embedding of the MCP-Server-EstacionApp repository.

The repository contains two Express servers:
* `src/mcp-server.js` — the nested-variant pipeline: the handler for the tool
  "analizar-estacionamiento" folds each instance's `contenido.contenido` list of
  `\x7bnombreId, valor\x7d` pairs into an attribute lookup, renders a prompt and calls
  the chat-completion gateway.
* `src/unnamed/part_000` — the flat-variant server: its handler reads the flat
  fields `nombre`, `domicilio`, `tarifa`, `capacidad`, `disponibles` directly.

JavaScript objects with optional fields are embedded with `Option` fields; the
JS falsy-or operator `x || d` on strings is `jsOr`; a JS `TypeError` thrown by a
property access on `undefined` is `JsError.typeError`; the external completion
call is a parameter `gw` of the handler, so that the handler is a pure function
of the gateway and the data.
-/

namespace EstacionApp

/-- One `\x7bnombreId, valor\x7d` entry of the nested attribute list
(`contenido.contenido` in `src/mcp-server.js`). -/
structure AttrItem where
  nombreId : String
  valor : String
deriving DecidableEq, Repr

/-- The `contenido` wrapper object of a nested-variant instance; its own
`contenido` field holds the attribute list when present. -/
structure ContenidoWrapper where
  contenido : Option (List AttrItem)
deriving DecidableEq, Repr

/-- A parking instance as a JS object: nested-variant fields (`contenido`,
`distancia`) and flat-variant fields (`domicilio`, `tarifa`, `capacidad`,
`disponibles`) are all optional, mirroring JS duck typing. -/
structure ParkingInstance where
  nombre : Option String := none
  contenido : Option ContenidoWrapper := none
  distancia : Option String := none
  domicilio : Option String := none
  tarifa : Option String := none
  capacidad : Option String := none
  disponibles : Option String := none
deriving DecidableEq, Repr

/-- The top-level payload `data`: `instancias`, `total`, `totalFull`. -/
structure ParkingQueryResult where
  instancias : Option (List ParkingInstance) := none
  total : Option Int := none
  totalFull : Option Int := none
deriving DecidableEq, Repr

/-- JS `x || d` for an optional string: `undefined` and the empty string are
falsy, anything else passes through. -/
def jsOr (v : Option String) (d : String) : String :=
  match v with
  | none => d
  | some s => if s = "" then d else s

/-- JS template interpolation of a possibly-absent number
(absent prints as the string undefined). -/
def jsShowOptInt : Option Int → String
  | none => "undefined"
  | some n => toString n

/-- One step of the JS `reduce`: `acc[item.nombreId] = item.valor` overwrites
the binding for that key. The accumulator object is embedded as a lookup
function. -/
def foldStep (acc : String → Option String) (item : AttrItem) : String → Option String :=
  fun k => if k = item.nombreId then some item.valor else acc k

/-- The fold at `src/mcp-server.js:29-32`: reduce the attribute list into a
lookup keyed by `nombreId`, starting from the empty object. -/
def foldDetalles (items : List AttrItem) : String → Option String :=
  items.foldl foldStep (fun _ => none)

/-- A JS `TypeError` raised by reading a property of `undefined`; the argument
records which property was being read. -/
inductive JsError where
  | typeError (prop : String)

/-- The `message` of the embedded JS error. -/
def JsError.message : JsError → String
  | .typeError prop => "Cannot read properties of undefined (reading " ++ prop ++ ")"

/-- A normalized record as built at `src/mcp-server.js:34-37`: the original
instance (the spread `...est`) together with the folded `detalles` lookup. -/
structure NormalizedEst where
  base : ParkingInstance
  detalles : String → Option String

/-- Normalization of one instance (`src/mcp-server.js:29-32`): evaluating
`est.contenido.contenido.reduce(...)` throws a `TypeError` when `est.contenido`
is absent (reading `contenido` of undefined) or when `est.contenido.contenido`
is absent (reading `reduce` of undefined); otherwise it folds the list. -/
def normalizeEst (est : ParkingInstance) : Except JsError NormalizedEst :=
  match est.contenido with
  | none => .error (.typeError "contenido")
  | some w =>
    match w.contenido with
    | none => .error (.typeError "reduce")
    | some items => .ok { base := est, detalles := foldDetalles items }

/-- `data.instancias.map(est => ...)` at `src/mcp-server.js:28-38`: the first
thrown `TypeError` propagates out of the map. -/
def normalizeAll : List ParkingInstance → Except JsError (List NormalizedEst)
  | [] => .ok []
  | est :: rest =>
    match normalizeEst est with
    | .error e => .error e
    | .ok r =>
      match normalizeAll rest with
      | .error e => .error e
      | .ok rs => .ok (r :: rs)

/-- Whether an instance carries the nested attribute list
(`est.contenido.contenido` present). -/
def hasNested (est : ParkingInstance) : Bool :=
  (est.contenido.bind ContenidoWrapper.contenido).isSome

/-- Whether an `Except` value is a success. -/
def exceptOk {e a : Type} : Except e a → Bool
  | .ok _ => true
  | .error _ => false

/-- The per-record fields with defaults, as read at `src/mcp-server.js:47-53`
inside the prompt map. -/
structure RenderFields where
  calle : String
  altura : String
  permiso : String
  horario : String
  lado : String
  distancia : String
deriving DecidableEq, Repr

/-- Field extraction with JS `||` defaults (`src/mcp-server.js:48-53`). -/
def renderFields (est : NormalizedEst) : RenderFields :=
  { calle := jsOr (est.detalles "calle") "Calle no especificada"
    altura := jsOr (est.detalles "altura") "S/N"
    permiso := jsOr (est.detalles "permiso") "Sin datos"
    horario := jsOr (est.detalles "horario") "Sin horario"
    lado := jsOr (est.detalles "lado") ""
    distancia := jsOr est.base.distancia "N/D" }

/-- One per-location block of the prompt (the inner template literal at
`src/mcp-server.js:55-60`), 1-indexed by `i + 1`. -/
def instBlock (est : NormalizedEst) (i : Nat) : String :=
  let f := renderFields est
  "\n📍 " ++ toString (i + 1) ++ ". " ++ f.calle ++ " " ++ f.altura ++ " (" ++ f.lado
    ++ ")\n- Tipo: " ++ f.permiso ++ "\n- Horario: " ++ f.horario
    ++ "\n- Distancia: " ++ f.distancia ++ " metros\n"

/-- `estacionamientos.map((est, i) => ...).join('')` starting at index `i`. -/
def blocksFrom : Nat → List NormalizedEst → String
  | _, [] => ""
  | i, est :: rest => instBlock est i ++ blocksFrom (i + 1) rest

/-- The full prompt template of `src/mcp-server.js:40-70`. -/
def buildPrompt (ests : List NormalizedEst) (total totalFull : Option Int) : String :=
  "Como experto en tránsito de CABA, analiza estos estacionamientos en formato claro y estructurado:\n\n**Datos generales:**\n- Total encontrados: "
    ++ jsShowOptInt total
    ++ "\n- Disponibles para estacionar: "
    ++ jsShowOptInt totalFull
    ++ "\n\n**Detalle por ubicación:**\n"
    ++ blocksFrom 0 ests
    ++ "\n\n**Formato requerido para la respuesta:**\n1. 🅿️ RESUMEN: Breve resumen de disponibilidad\n2. ✅ UBICACIONES PERMITIDAS: Lista clara de calles y horarios donde se puede estacionar\n3. 🚫 RESTRICCIONES: Zonas prohibidas o con limitaciones\n4. 💡 RECOMENDACIÓN: Mejor opción basada en distancia y disponibilidad\n5. 📌 OBSERVACIONES: Cualquier dato adicional relevante\n\n**Sé conciso pero preciso, usando emojis para mejor legibilidad.**"

/-- Substring test (JS `String.prototype.includes`): some tail of the haystack
starts with the needle. -/
def strIncludes (hay needle : String) : Bool :=
  hay.data.tails.any (fun t => needle.data.isPrefixOf t)

/-- One content block of a result (`\x7btype, text\x7d`). -/
structure ContentBlock where
  type : String
  text : String
deriving DecidableEq, Repr

/-- The metadata object built on the success path (`src/mcp-server.js:90-96`). -/
structure Metadata where
  totalEstacionamientos : Option Int
  estacionamientosPermitidos : Nat
  estacionamientosProhibidos : Nat
deriving DecidableEq, Repr

/-- A handler result: content blocks plus the optional `metadata` and `error`
fields (a JS object field is either absent or present with a value). -/
structure HandlerResult where
  content : List ContentBlock
  metadata : Option Metadata := none
  error : Option Bool := none
deriving DecidableEq, Repr

/-- The request sent to the chat-completion service
(`src/mcp-server.js:73-83`). -/
structure GatewayRequest where
  model : String
  system : String
  user : String
  temperature : ℚ

/-- Outcome of the external completion call: the first choice's message text,
or a thrown error's `message`. -/
inductive GatewayOutcome where
  | success (analysis : String)
  | failure (message : String)

/-- The fixed system-role instruction (`src/mcp-server.js:78`). -/
def systemMsg : String :=
  "Eres un asistente especializado en movilidad urbana de Buenos Aires. Proporciona información clara y estructurada con emojis relevantes."

/-- The fixed no-results text (`src/mcp-server.js:22`). -/
def noSpotsText : String :=
  "🚫 No se encontraron estacionamientos disponibles en la zona."

/-- The result returned when `instancias` is empty or absent
(`src/mcp-server.js:19-24`). -/
def noSpotsResult : HandlerResult :=
  { content := [{ type := "text", text := noSpotsText }] }

/-- Prefix of the catch-block text (`src/mcp-server.js:103`). -/
def gwErrorText (m : String) : String :=
  "⚠️ Error al analizar los estacionamientos: " ++ m

/-- The result built in the handler's catch block (`src/mcp-server.js:100-106`):
error flag set, single text block embedding the error message. -/
def gwErrorResult (m : String) : HandlerResult :=
  { content := [{ type := "text", text := gwErrorText m }], error := some true }

/-- `e.detalles.permiso?.includes(s)` with optional chaining
(`src/mcp-server.js:92-95`): absent `permiso` is falsy. -/
def permisoIncludes (e : NormalizedEst) (s : String) : Bool :=
  match e.detalles "permiso" with
  | none => false
  | some p => strIncludes p s

/-- The metadata of the success path (`src/mcp-server.js:90-96`). -/
def metadataOf (data : ParkingQueryResult) (ests : List NormalizedEst) : Metadata :=
  { totalEstacionamientos := data.total
    estacionamientosPermitidos := (ests.filter (fun e => permisoIncludes e "PERMITIDO")).length
    estacionamientosProhibidos := (ests.filter (fun e => permisoIncludes e "PROHIBIDO")).length }

/-- The tool handler of `src/mcp-server.js:15-108`, parameterized by the
gateway `gw` (the awaited `openai.chat.completions.create` call): guard on
empty or absent `instancias`, normalize, build the prompt, call the gateway,
and catch gateway failures into an error-flagged result. A `TypeError` from
normalization propagates out as `Except.error`. -/
def handler (gw : GatewayRequest → GatewayOutcome) (data : ParkingQueryResult) :
    Except JsError HandlerResult :=
  match data.instancias with
  | none => .ok noSpotsResult
  | some l =>
    if l.length = 0 then .ok noSpotsResult
    else
      match normalizeAll l with
      | .error e => .error e
      | .ok ests =>
        let prompt := buildPrompt ests data.total data.totalFull
        match gw { model := "openai/gpt-3.5-turbo", system := systemMsg,
                   user := prompt, temperature := 3 / 10 } with
        | .success analysis =>
            .ok { content := [{ type := "text", text := analysis }],
                  metadata := some (metadataOf data ests) }
        | .failure msg => .ok (gwErrorResult msg)

/-- The `\x7b input \x7d` wrapper of the request body. -/
structure InputObj where
  data : Option ParkingQueryResult
deriving DecidableEq, Repr

/-- The request body `\x7b input: \x7b data: ... \x7d \x7d`. -/
structure RequestBody where
  input : Option InputObj
deriving DecidableEq, Repr

/-- The 400 message of `src/mcp-server.js:138`. -/
def badPayloadMsg : String :=
  "Formato incorrecto. Se espera \x7b input: \x7b data: \x7b...\x7d \x7d \x7d"

/-- The HTTP response of the dispatcher, one constructor per exit of
`POST /mcp-tool/:toolName` (`src/mcp-server.js:129-175`). -/
inductive DispatchResponse where
  | badRequest (error : String)
  | notFound (error : String) (herramientasDisponibles : List String)
  | success (result : HandlerResult)
  | internalError (error : String) (detalle : String)
deriving DecidableEq, Repr

/-- The HTTP status of each response shape. -/
def DispatchResponse.status : DispatchResponse → Nat
  | .badRequest _ => 400
  | .notFound _ _ => 404
  | .success _ => 200
  | .internalError _ _ => 500

/-- The dispatcher of `src/mcp-server.js:129-175` over an arbitrary registry:
payload guard first (400), then tool lookup (404 listing registered names),
then the handler inside try/catch (200 on a returned result, 500 on a thrown
error). -/
def dispatchCore
    (reg : List (String × (ParkingQueryResult → Except JsError HandlerResult)))
    (toolName : String) (body : RequestBody) : DispatchResponse :=
  match body.input with
  | none => .badRequest badPayloadMsg
  | some inp =>
    match inp.data with
    | none => .badRequest badPayloadMsg
    | some d =>
      match reg.lookup toolName with
      | none => .notFound "Herramienta no encontrada" (reg.map Prod.fst)
      | some h =>
        match h d with
        | .ok r => .success r
        | .error e => .internalError "Error interno al procesar la solicitud" e.message

/-- The registered tool names (`tools` map keys, `src/mcp-server.js:14`). -/
def toolNames : List String := ["analizar-estacionamiento"]

/-- The `tools` registry of `src/mcp-server.js:12-14`, parameterized by the
gateway. -/
def registry (gw : GatewayRequest → GatewayOutcome) :
    List (String × (ParkingQueryResult → Except JsError HandlerResult)) :=
  [("analizar-estacionamiento", handler gw)]

/-- `dispatch` as exposed by `src/mcp-server.js`: `dispatchCore` over the
process registry. -/
def dispatch (gw : GatewayRequest → GatewayOutcome) (toolName : String)
    (body : RequestBody) : DispatchResponse :=
  dispatchCore (registry gw) toolName body

/-- JS guard `!data.instancias || data.instancias.length === 0`
(`src/mcp-server.js:18`). -/
def emptyInst (d : ParkingQueryResult) : Bool :=
  match d.instancias with
  | none => true
  | some l => l.isEmpty

/-! ## The flat-variant server `src/unnamed/part_000` -/

/-- The per-instance record of the flat-variant prompt
(`src/unnamed/part_000:33-37`), with its own JS `||` defaults. -/
structure FlatRecord where
  nombre : String
  domicilio : String
  tarifa : String
  capacidad : String
  disponibles : String
deriving DecidableEq, Repr

/-- Direct flat-field lookup of `src/unnamed/part_000:33-37`. -/
def flatRecord (est : ParkingInstance) : FlatRecord :=
  { nombre := jsOr est.nombre "Sin nombre"
    domicilio := jsOr est.domicilio "No especificada"
    tarifa := jsOr est.tarifa "No especificada"
    capacidad := jsOr est.capacidad "?"
    disponibles := jsOr est.disponibles "?" }

/-! ## Concrete inputs -/

/-- The attribute list of the `/ejemplo` payload (`src/mcp-server.js:205-211`). -/
def nestedExItems : List AttrItem :=
  [{ nombreId := "calle", valor := "ECHAGUE, PEDRO" },
   { nombreId := "altura", valor := "1301-1400" },
   { nombreId := "permiso", valor := "PERMITIDO ESTACIONAR" },
   { nombreId := "horario", valor := "24 HORAS" },
   { nombreId := "lado", valor := "derecho" }]

/-- The nested-variant example instance (`src/mcp-server.js:202-214`). -/
def nestedEx : ParkingInstance :=
  { nombre := some "Permitido estacionar 24 horas",
    contenido := some { contenido := some nestedExItems },
    distancia := some "4.85" }

/-- The flat-variant instance carrying the same logical values as `nestedEx`,
using the field names the flat server reads (street under `domicilio`). -/
def flatEx : ParkingInstance :=
  { nombre := some "Permitido estacionar 24 horas",
    domicilio := some "ECHAGUE, PEDRO",
    distancia := some "4.85" }

/-- The `/ejemplo` payload (`src/mcp-server.js:200-218`). -/
def ejemploData : ParkingQueryResult :=
  { instancias := some [nestedEx], total := some 1, totalFull := some 1 }

/-- The example payload with the flat-variant instance in place of the nested
one. -/
def flatData : ParkingQueryResult :=
  { instancias := some [flatEx], total := some 1, totalFull := some 1 }

/-- A gateway that echoes the rendered prompt back as the analysis, used to
observe the prompt a handler run sends out. -/
def gwEcho : GatewayRequest → GatewayOutcome :=
  fun req => .success req.user

/-- A gateway that fails with the given error message. -/
def gwFail (m : String) : GatewayRequest → GatewayOutcome :=
  fun _ => .failure m

/-- The text of the single content block of a handler run, empty on error. -/
def firstText : Except JsError HandlerResult → String
  | .ok r =>
    match r.content with
    | b :: _ => b.text
    | [] => ""
  | .error _ => ""

/-- The prompt the handler sends for the `/ejemplo` payload, observed through
the echoing gateway. -/
def ejemploText : String :=
  firstText (handler gwEcho ejemploData)

/-! ## Helper lemmas -/

lemma foldl_step_no_key (l : List AttrItem) (k : String)
    (h : ∀ it ∈ l, it.nombreId ≠ k) (acc : String → Option String) :
    l.foldl foldStep acc k = acc k := by
  induction l generalizing acc with
  | nil => rfl
  | cons a t ih =>
    have ha : a.nombreId ≠ k := h a (List.mem_cons_self a t)
    have ht : ∀ it ∈ t, it.nombreId ≠ k := fun it hit => h it (List.mem_cons_of_mem a hit)
    rw [List.foldl_cons, ih ht]
    rw [foldStep, if_neg (fun hk => ha hk.symm)]

lemma normalizeEst_nested (est : ParkingInstance) (w : ContenidoWrapper)
    (items : List AttrItem) (hw : est.contenido = some w) (hi : w.contenido = some items) :
    normalizeEst est = Except.ok { base := est, detalles := foldDetalles items } := by
  simp [normalizeEst, hw, hi]

lemma normalizeEst_err (est : ParkingInstance) (h : hasNested est = false) :
    ∃ p, normalizeEst est = Except.error (JsError.typeError p) := by
  cases hc : est.contenido with
  | none => exact ⟨"contenido", by simp [normalizeEst, hc]⟩
  | some w =>
    cases hw : w.contenido with
    | none => exact ⟨"reduce", by simp [normalizeEst, hc, hw]⟩
    | some items =>
      exfalso
      rw [hasNested, hc] at h
      simp [hw] at h

lemma normalizeAll_err (l : List ParkingInstance)
    (h : ∃ est ∈ l, hasNested est = false) :
    ∃ p, normalizeAll l = Except.error (JsError.typeError p) := by
  induction l with
  | nil => simp at h
  | cons est rest ih =>
    cases hn : hasNested est with
    | false =>
      obtain ⟨p, hp⟩ := normalizeEst_err est hn
      exact ⟨p, by simp [normalizeAll, hp]⟩
    | true =>
      have hb : ∃ e ∈ rest, hasNested e = false := by
        obtain ⟨e, he, hfe⟩ := h
        rcases List.mem_cons.mp he with rfl | hmem
        · rw [hn] at hfe; cases hfe
        · exact ⟨e, hmem, hfe⟩
      obtain ⟨p, hp⟩ := ih hb
      have hok : ∃ r, normalizeEst est = Except.ok r := by
        rw [hasNested] at hn
        cases hc : est.contenido with
        | none => rw [hc] at hn; simp at hn
        | some w =>
          cases hw : w.contenido with
          | none => rw [hc] at hn; simp [hw] at hn
          | some items => exact ⟨_, normalizeEst_nested est w items hc hw⟩
      obtain ⟨r, hr⟩ := hok
      exact ⟨p, by simp [normalizeAll, hr, hp]⟩

lemma strIncludes_append_right (a m : String) : strIncludes (a ++ m) m = true := by
  rw [strIncludes, List.any_eq_true]
  refine ⟨m.data, ?_, ?_⟩
  · rw [List.mem_tails, String.data_append]
    exact List.suffix_append a.data m.data
  · exact List.isPrefixOf_iff_prefix.mpr (List.prefix_refl m.data)

lemma dispatch_eq_handler (gw : GatewayRequest → GatewayOutcome) (d : ParkingQueryResult) :
    dispatch gw "analizar-estacionamiento" { input := some { data := some d } } =
      match handler gw d with
      | .ok r => DispatchResponse.success r
      | .error e =>
          DispatchResponse.internalError "Error interno al procesar la solicitud" e.message := by
  simp [dispatch, dispatchCore, registry, List.lookup]

/-! ## Claim theorems -/

/-- C10: when the nested attribute list binds the same `nombreId` several
times, the fold keeps the `valor` of the last such entry: looking up `k` in the
fold of `l1 ++ [⟨k, v⟩] ++ l2`, where `l2` has no further binding of `k`,
yields `v`, regardless of any earlier bindings in `l1`. -/
theorem C10_last_occurrence_wins (l1 l2 : List AttrItem) (k v : String)
    (h : ∀ it ∈ l2, it.nombreId ≠ k) :
    foldDetalles (l1 ++ { nombreId := k, valor := v } :: l2) k = some v := by
  rw [foldDetalles, List.foldl_append, List.foldl_cons, foldl_step_no_key l2 k h]
  simp [foldStep]

/-- C10 witness: with two bindings of `calle`, the fold returns the second. -/
theorem C10_last_occurrence_wins_witness :
    foldDetalles [{ nombreId := "calle", valor := "A" },
                  { nombreId := "calle", valor := "B" }] "calle" = some "B" :=
  C10_last_occurrence_wins [{ nombreId := "calle", valor := "A" }] [] "calle" "B"
    (by simp)

/-- C1 counterexample: normalization is not variant-invariant. On the
flat-variant instance `flatEx`, which carries the same logical values as the
nested example (street under `domicilio`, as the flat server reads it), the
Normalizer of `src/mcp-server.js` throws a `TypeError` instead of producing a
record, while the flat server's direct field lookup does read the street; and
the folded attribute map of the nested example has no binding at all for the
flat field name `domicilio`. So the two shapes are neither both supported by
the one Normalizer nor mapped to the same attribute lookup. -/
theorem C1_variant_invariance_counterexample :
    normalizeEst flatEx = Except.error (JsError.typeError "contenido") ∧
    (flatRecord flatEx).domicilio = "ECHAGUE, PEDRO" ∧
    foldDetalles nestedExItems "domicilio" = none ∧
    foldDetalles nestedExItems "calle" = some "ECHAGUE, PEDRO" :=
  ⟨rfl, rfl, rfl, rfl⟩

/-- C1 amended: the Normalizer of `src/mcp-server.js` supports only the
nested variant: normalization of an instance succeeds exactly when the
instance carries a `contenido.contenido` attribute list, in which case the
normalized record is the instance together with the folded lookup by
`nombreId`; the flat variant is handled only by the separate server in
`src/unnamed/part_000` through its own direct field lookup. -/
theorem C1_nested_only_normalization (est : ParkingInstance) :
    exceptOk (normalizeEst est) = hasNested est ∧
    ∀ w items, est.contenido = some w → w.contenido = some items →
      normalizeEst est = Except.ok { base := est, detalles := foldDetalles items } := by
  constructor
  · cases hc : est.contenido with
    | none => simp [normalizeEst, hasNested, hc, exceptOk]
    | some w =>
      cases hw : w.contenido with
      | none => simp [normalizeEst, hasNested, hc, hw, exceptOk]
      | some items => simp [normalizeEst, hasNested, hc, hw, exceptOk]
  · intro w items hw hi
    exact normalizeEst_nested est w items hw hi

/-- C1 amended witness: on the nested example instance, normalization
succeeds and produces the folded lookup. -/
theorem C1_nested_only_normalization_witness :
    exceptOk (normalizeEst nestedEx) = hasNested nestedEx ∧
    normalizeEst nestedEx =
      Except.ok { base := nestedEx, detalles := foldDetalles nestedExItems } :=
  ⟨(C1_nested_only_normalization nestedEx).1,
   (C1_nested_only_normalization nestedEx).2 _ _ rfl rfl⟩

/-- C6: a normalized record whose folded lookup lacks the keys `calle`,
`altura`, `permiso`, `horario`, `lado`, and whose instance lacks `distancia`,
renders with the documented defaults: street "Calle no especificada", block
range "S/N", permission "Sin datos", schedule "Sin horario", side the empty
string, distance "N/D" — missing attribute keys are tolerated via defaults
rather than failing. -/
theorem C6_defaults_for_absent_fields (est : NormalizedEst)
    (hcalle : est.detalles "calle" = none)
    (haltura : est.detalles "altura" = none)
    (hpermiso : est.detalles "permiso" = none)
    (hhorario : est.detalles "horario" = none)
    (hlado : est.detalles "lado" = none)
    (hdist : est.base.distancia = none) :
    renderFields est =
      { calle := "Calle no especificada", altura := "S/N", permiso := "Sin datos",
        horario := "Sin horario", lado := "", distancia := "N/D" } := by
  simp [renderFields, jsOr, hcalle, haltura, hpermiso, hhorario, hlado, hdist]

/-- C6 witness: the record with an empty folded lookup and no `distancia`
renders entirely with defaults. -/
theorem C6_defaults_for_absent_fields_witness :
    renderFields { base := {}, detalles := fun _ => none } =
      { calle := "Calle no especificada", altura := "S/N", permiso := "Sin datos",
        horario := "Sin horario", lado := "", distancia := "N/D" } :=
  C6_defaults_for_absent_fields { base := {}, detalles := fun _ => none }
    rfl rfl rfl rfl rfl rfl

/-- C8: prompt rendering is deterministic — two runs of the Prompt Builder on
equal normalized record sequences and equal counts yield identical prompt
strings (the builder is a pure function of its inputs, with no I/O). -/
theorem C8_render_deterministic (e1 e2 : List NormalizedEst)
    (t1 t2 u1 u2 : Option Int) (he : e1 = e2) (ht : t1 = t2) (hu : u1 = u2) :
    buildPrompt e1 t1 u1 = buildPrompt e2 t2 u2 := by
  rw [he, ht, hu]

/-- C8 witness: two renders of the empty record list with counts 1 and 1
agree. -/
theorem C8_render_deterministic_witness :
    buildPrompt [] (some 1) (some 1) = buildPrompt [] (some 1) (some 1) :=
  C8_render_deterministic [] [] (some 1) (some 1) (some 1) (some 1) rfl rfl rfl

/-- C2: when `instancias` is empty or absent, the handler returns the fixed
"no parking spots found" block and the Completion Gateway is never invoked:
the result is the same constant for every gateway `gw`, and dispatch wraps it
in a success response. -/
theorem C2_empty_short_circuits (gw : GatewayRequest → GatewayOutcome)
    (d : ParkingQueryResult) (h : emptyInst d = true) :
    handler gw d = Except.ok noSpotsResult ∧
    dispatch gw "analizar-estacionamiento" { input := some { data := some d } } =
      DispatchResponse.success noSpotsResult := by
  have hh : handler gw d = Except.ok noSpotsResult := by
    cases hi : d.instancias with
    | none => simp [handler, hi]
    | some l =>
      have hl : l = [] := by
        rw [emptyInst, hi] at h
        exact List.isEmpty_iff.mp h
      simp [handler, hi, hl]
  exact ⟨hh, by rw [dispatch_eq_handler, hh]⟩

/-- C2 witness: with an empty `instancias` and a gateway that would fail if it
were ever called, the handler still returns the fixed no-spots result and
dispatch returns it as a success. -/
theorem C2_empty_short_circuits_witness :
    handler (gwFail "unreachable") { instancias := some [] } = Except.ok noSpotsResult ∧
    dispatch (gwFail "unreachable") "analizar-estacionamiento"
      { input := some { data := some { instancias := some [] } } } =
      DispatchResponse.success noSpotsResult :=
  ⟨(C2_empty_short_circuits (gwFail "unreachable") { instancias := some [] } rfl).1,
   (C2_empty_short_circuits (gwFail "unreachable") { instancias := some [] } rfl).2⟩

/-- C3: when the external completion call fails with message `m` (on any run
that reaches it: nonempty `instancias` and successful normalization), the
handler catches the failure and returns a result whose `error` flag is set and
whose single text block embeds `m`; dispatch wraps it in a success-shaped 200
response rather than propagating the fault. -/
theorem C3_gateway_failure_degrades (m : String) (d : ParkingQueryResult)
    (l : List ParkingInstance) (ests : List NormalizedEst)
    (hl : d.instancias = some l) (hne : l ≠ [])
    (hn : normalizeAll l = Except.ok ests) :
    handler (gwFail m) d = Except.ok (gwErrorResult m) ∧
    dispatch (gwFail m) "analizar-estacionamiento" { input := some { data := some d } } =
      DispatchResponse.success (gwErrorResult m) ∧
    (DispatchResponse.success (gwErrorResult m)).status = 200 ∧
    (gwErrorResult m).error = some true ∧
    strIncludes (gwErrorText m) m = true := by
  have hlen : ¬ l.length = 0 := by simpa [List.length_eq_zero] using hne
  have hh : handler (gwFail m) d = Except.ok (gwErrorResult m) := by
    simp [handler, hl, hlen, hn, gwFail]
  refine ⟨hh, by rw [dispatch_eq_handler, hh], rfl, rfl, ?_⟩
  exact strIncludes_append_right "⚠️ Error al analizar los estacionamientos: " m

/-- C3 witness: on the example payload with a gateway failing with message
"socket hang up", the handler returns the error-flagged degraded result. -/
theorem C3_gateway_failure_degrades_witness :
    handler (gwFail "socket hang up") ejemploData = Except.ok (gwErrorResult "socket hang up") ∧
    dispatch (gwFail "socket hang up") "analizar-estacionamiento"
      { input := some { data := some ejemploData } } =
      DispatchResponse.success (gwErrorResult "socket hang up") :=
  ⟨(C3_gateway_failure_degrades "socket hang up" ejemploData [nestedEx]
      [{ base := nestedEx, detalles := foldDetalles nestedExItems }]
      rfl (List.cons_ne_nil nestedEx []) rfl).1,
   (C3_gateway_failure_degrades "socket hang up" ejemploData [nestedEx]
      [{ base := nestedEx, detalles := foldDetalles nestedExItems }]
      rfl (List.cons_ne_nil nestedEx []) rfl).2.1⟩

/-- C4 counterexample: a dispatch call whose tool name is absent from the
registry does not always fail with the 404 not-found response — the payload
guard runs first, so an unknown tool with a body lacking `input` gets the 400
bad-payload response instead, even though "unknown-tool" is not registered. -/
theorem C4_unknown_tool_counterexample :
    dispatch gwEcho "unknown-tool" { input := none } =
      DispatchResponse.badRequest badPayloadMsg ∧
    (dispatch gwEcho "unknown-tool" { input := none }).status = 400 ∧
    "unknown-tool" ∉ toolNames :=
  ⟨rfl, rfl, by decide⟩

/-- C4 amended: for every dispatch call whose tool name is absent from the
registry AND whose payload carries the required `input.data` field, dispatch
fails with the 404 not-found response listing all registered tool names; when
the payload guard fails too, the 400 bad-payload response wins because it is
checked first. -/
theorem C4_unknown_tool_with_valid_payload (gw : GatewayRequest → GatewayOutcome)
    (name : String) (inp : InputObj) (d : ParkingQueryResult)
    (hd : inp.data = some d) (hname : name ∉ toolNames) :
    dispatch gw name { input := some inp } =
      DispatchResponse.notFound "Herramienta no encontrada" toolNames ∧
    (dispatch gw name { input := some inp }).status = 404 := by
  have hne : (name == "analizar-estacionamiento") = false := by
    simp [toolNames] at hname
    exact beq_eq_false_iff_ne.mpr hname
  have hdisp : dispatch gw name { input := some inp } =
      DispatchResponse.notFound "Herramienta no encontrada" toolNames := by
    simp [dispatch, dispatchCore, registry, hd, List.lookup, hne, toolNames]
  exact ⟨hdisp, by rw [hdisp]; rfl⟩

/-- C4 amended witness: an unknown tool with a valid payload gets the 404
response listing the registered names. -/
theorem C4_unknown_tool_with_valid_payload_witness :
    dispatch gwEcho "unknown-tool" { input := some { data := some ejemploData } } =
      DispatchResponse.notFound "Herramienta no encontrada" toolNames :=
  (C4_unknown_tool_with_valid_payload gwEcho "unknown-tool"
    { data := some ejemploData } ejemploData rfl (by decide)).1

/-- C5: for every dispatch call whose body lacks `input`, or whose `input`
lacks `data`, the dispatcher returns the 400 bad-payload response — for every
registry whatsoever, so no registered handler is ever invoked. -/
theorem C5_missing_data_rejected
    (reg : List (String × (ParkingQueryResult → Except JsError HandlerResult)))
    (toolName : String) (body : RequestBody)
    (h : body.input = none ∨ ∃ inp, body.input = some inp ∧ inp.data = none) :
    dispatchCore reg toolName body = DispatchResponse.badRequest badPayloadMsg ∧
    (dispatchCore reg toolName body).status = 400 := by
  have hd : dispatchCore reg toolName body = DispatchResponse.badRequest badPayloadMsg := by
    rcases h with h | ⟨inp, h1, h2⟩
    · simp [dispatchCore, h]
    · simp [dispatchCore, h1, h2]
  exact ⟨hd, by rw [hd]; rfl⟩

/-- C5 witness: the empty body `{}` sent to the registered tool is rejected
with the 400 bad-payload response, with the real registry in place. -/
theorem C5_missing_data_rejected_witness :
    dispatchCore (registry gwEcho) "analizar-estacionamiento" { input := none } =
      DispatchResponse.badRequest badPayloadMsg :=
  (C5_missing_data_rejected (registry gwEcho) "analizar-estacionamiento"
    { input := none } (Or.inl rfl)).1

set_option maxRecDepth 100000

/-- C7: for the example nested-variant payload, the prompt the handler builds
and sends to the gateway (observed here through the echoing gateway as
`ejemploText`) contains the literal substrings "ECHAGUE, PEDRO", "1301-1400",
"PERMITIDO ESTACIONAR", "24 HORAS", "derecho" and "4.85". -/
theorem C7_prompt_contains_example_values :
    strIncludes ejemploText "ECHAGUE, PEDRO" = true ∧
    strIncludes ejemploText "1301-1400" = true ∧
    strIncludes ejemploText "PERMITIDO ESTACIONAR" = true ∧
    strIncludes ejemploText "24 HORAS" = true ∧
    strIncludes ejemploText "derecho" = true ∧
    strIncludes ejemploText "4.85" = true := by
  refine ⟨?_, ?_, ?_, ?_, ?_, ?_⟩ <;> decide

/-- C9: when `instancias` is nonempty and some instance lacks the nested
`contenido.contenido` attribute list (for example flat-variant input given to
the nested-variant handler), the fold throws a `TypeError` instead of applying
field defaults, and the dispatcher's catch converts it into the 500
internal-fault response carrying the error message. -/
theorem C9_missing_nested_collection_faults (gw : GatewayRequest → GatewayOutcome)
    (d : ParkingQueryResult) (l : List ParkingInstance)
    (hl : d.instancias = some l) (hne : l ≠ [])
    (hbad : ∃ est ∈ l, hasNested est = false) :
    ∃ p, handler gw d = Except.error (JsError.typeError p) ∧
      dispatch gw "analizar-estacionamiento" { input := some { data := some d } } =
        DispatchResponse.internalError "Error interno al procesar la solicitud"
          (JsError.typeError p).message ∧
      (DispatchResponse.internalError "Error interno al procesar la solicitud"
          (JsError.typeError p).message).status = 500 := by
  obtain ⟨p, hp⟩ := normalizeAll_err l hbad
  have hlen : ¬ l.length = 0 := by simpa [List.length_eq_zero] using hne
  have hh : handler gw d = Except.error (JsError.typeError p) := by
    simp [handler, hl, hlen, hp]
  exact ⟨p, hh, by rw [dispatch_eq_handler, hh], rfl⟩

/-- C9 witness: a payload whose single instance is the flat-variant example
makes the handler throw and dispatch answer with the 500 internal fault. -/
theorem C9_missing_nested_collection_faults_witness :
    ∃ p, handler gwEcho flatData = Except.error (JsError.typeError p) ∧
      dispatch gwEcho "analizar-estacionamiento"
        { input := some { data := some flatData } } =
        DispatchResponse.internalError "Error interno al procesar la solicitud"
          (JsError.typeError p).message ∧
      (DispatchResponse.internalError "Error interno al procesar la solicitud"
          (JsError.typeError p).message).status = 500 :=
  C9_missing_nested_collection_faults gwEcho flatData
    [flatEx] rfl (List.cons_ne_nil flatEx [])
    ⟨flatEx, List.mem_cons_self flatEx [], rfl⟩

end EstacionApp
